import Mathlib

/-
Shallow embedding of the special-resource-operator's version resolution,
node correlation, ordered reconciliation and preflight verification code
(src/controllers/specialresourcemodule.go, src/pkg/preflight/preflight.go,
src/pkg/upgrade/upgrade.go), together with theorems settling the
specification's claims against it.

External collaborators (the Kubernetes client, the Helm templating engine,
the container registry, the upgrade-graph HTTP endpoint) are passed in as
explicit function-valued oracles; all control flow around them is translated
from the Go source.  Fallible Go calls returning (value, error) are embedded
as `Except String`-valued functions.
-/

namespace SRO

/-
Reconciliation state machine: `reconcileChart`
(src/controllers/specialresourcemodule.go lines 361-422).
-/

/-- Lexicographic strict order on character lists, by code point.  Embeds the
Go string comparison `stateYAMLS[i].Name < stateYAMLS[j].Name` (byte-wise in
Go; identical to code-point order on the ASCII template names involved). -/
def charsLt : List Char → List Char → Bool
  | [], [] => false
  | [], _ :: _ => true
  | _ :: _, [] => false
  | a :: as, b :: bs =>
    if a.toNat < b.toNat then true
    else if b.toNat < a.toNat then false
    else charsLt as bs

/-- Lexicographic strict order on names (see `charsLt`). -/
def nameLt (a b : String) : Bool := charsLt a.toList b.toList

/-- Insert a name into an ascending-sorted list of names (helper for the
`sort.Slice(stateYAMLS, ...)` call, which sorts state templates by name
ascending). -/
def insertSorted (s : String) : List String → List String
  | [] => [s]
  | t :: ts => if nameLt t s then t :: insertSorted s ts else s :: t :: ts

/-- Sort a list of template names ascending, embedding
`sort.Slice(stateYAMLS, func(i, j int) bool { return Name[i] < Name[j] })`. -/
def sortNames (l : List String) : List String := l.foldr insertSorted []

/-- The names appended to `result` during the partition loop of
`reconcileChart`: templates that satisfy `Assets.ValidStateName` and are
already listed in `reconciledInputMap` are recorded without reapplying,
in chart-template order. -/
def skippedUnits (valid : String → Bool) (templates reconciledInput : List String) :
    List String :=
  templates.filter (fun t => valid t && reconciledInput.contains t)

/-- The `stateYAMLS` slice of `reconcileChart`: templates that satisfy
`Assets.ValidStateName` and are not yet listed in `reconciledInputMap`,
in chart-template order (they are sorted by name afterwards). -/
def pendingUnits (valid : String → Bool) (templates reconciledInput : List String) :
    List String :=
  templates.filter (fun t => valid t && !(reconciledInput.contains t))

/-- The per-state-template apply loop of `reconcileChart`.  The oracle `run`
merges the fallible steps of one loop iteration (the two
`chartutil.CoalesceValues` calls, the `ToUnstructured` conversion and
`Helmer.Run`): `none` means the unit applied successfully, `some e` means the
iteration failed with error `e`, upon which the Go code returns
`(result, err)` at once.  On running off the end of the slice the Go code
executes `return nil, nil`, discarding `result`; the embedding returns the
empty list there, exactly as the source does.  The third component returned
is the trace of state units for which an apply iteration was started (the
calls made to the templating collaborator), in order. -/
def applyLoop (run : String → Option String) :
    List String → List String → List String → (List String × Option String) × List String
  | [], _, applied => (([], none), applied)
  | t :: rest, result, applied =>
    match run t with
    | none => applyLoop run rest (result ++ [t]) (applied ++ [t])
    | some e => ((result, some e), applied ++ [t])

/-- Embeds `reconcileChart` (src/controllers/specialresourcemodule.go
lines 361-422).  The chart is represented by its template-name list
(`c.Templates`), `valid` is the `Assets.ValidStateName` collaborator,
`reconciledInput` is the persisted list of already-reconciled unit names, and
`run` is the templating collaborator (see `applyLoop`).  Returns the Go pair
(`result`-or-nil, error) together with the trace of attempted applies.
`Helmer.Load` failure (which returns an empty `result` and the load error
before any partitioning) is outside the claims and not modelled: the chart is
taken as already loaded. -/
def reconcileChart (valid : String → Bool) (run : String → Option String)
    (templates reconciledInput : List String) : (List String × Option String) × List String :=
  applyLoop run (sortNames (pendingUnits valid templates reconciledInput))
    (skippedUnits valid templates reconciledInput) []

/-
Version Graph Client: `getImageFromVersion`
(src/controllers/specialresourcemodule.go lines 202-266).
-/

/-- One node of the upgrade-graph JSON response (`versionNode`). -/
structure VersionNode where
  version : String
  payload : String
deriving DecidableEq, Repr

/-- The channel query string `fmt.Sprintf("%s-%s.%s", stream, major, minor)`
put into the `channel` URL parameter. -/
def channelQuery (stream major minor : String) : String :=
  stream ++ "-" ++ major ++ "." ++ minor

/-- The inner node scan of `getImageFromVersion`: the first graph node whose
`version` equals the full version and whose `payload` is non-empty sets
`imageURL` and breaks out of the node loop. -/
def findNodePayload (full : String) (nodes : List VersionNode) : Option String :=
  (nodes.find? (fun n => n.version == full && !(n.payload == ""))).map (fun n => n.payload)

/-- One iteration of the channel loop of `getImageFromVersion`, for channel
query `chq` with the current value `acc` of `imageURL`.  The oracle `resp`
stands for the whole HTTP exchange: request construction, `client.Do`, the
non-200 status check, body read and JSON unmarshalling; any failure there is
an `Except.error` and aborts the whole lookup.  On success the node scan
either overwrites `imageURL` or leaves it unchanged. -/
def stepChannel (resp : String → Except String (List VersionNode))
    (full chq acc : String) : Except String String :=
  match resp chq with
  | Except.error e => Except.error e
  | Except.ok nodes =>
    match findNodePayload full nodes with
    | some p => Except.ok p
    | none => Except.ok acc

/-- Embeds `getImageFromVersion` (src/controllers/specialresourcemodule.go
lines 202-266).  The Go code runs `versionRegex.FindStringSubmatch(entry)` on
a string already known to match the anchored semver regular expression, so
`full` is the entry itself and `major`/`minor` are the first two capture
groups; the embedding takes them as arguments.  The channel loop over the
literal slice `{"fast", "stable", "candidate"}` is unrolled; `imageURL`
starts empty, and after the loop an empty `imageURL` yields the
`"version %s not found"` error. -/
def getImageFromVersion (resp : String → Except String (List VersionNode))
    (full major minor : String) : Except String String :=
  match stepChannel resp full (channelQuery "fast" major minor) "" with
  | Except.error e => Except.error e
  | Except.ok a1 =>
    match stepChannel resp full (channelQuery "stable" major minor) a1 with
    | Except.error e => Except.error e
    | Except.ok a2 =>
      match stepChannel resp full (channelQuery "candidate" major minor) a2 with
      | Except.error e => Except.error e
      | Except.ok a3 =>
        if a3 == "" then Except.error ("version " ++ full ++ " not found")
        else Except.ok a3

/-- The priority a match ends up with after the three channel passes of
`getImageFromVersion`: each later channel's match overwrites the current
`imageURL`, so the candidate channel beats stable, which beats fast. -/
def lastMatchWins (mf ms mc : Option String) : Option String :=
  match mc with
  | some p => some p
  | none =>
    match ms with
    | some p => some p
    | none => mf

/-
Registry Walker interface (pkg/registry, consumed by the controller, the
preflight gate and the node correlator) and the data model of the controller.
-/

/-- Metadata embedded in a driver-toolkit image
(`registry.DriverToolkitEntry`). -/
structure DriverToolkitEntry where
  imageURL : String
  kernelFullVersion : String
  rtKernelFullVersion : String
  osVersion : String
deriving DecidableEq, Repr

/-- The `registry.Registry` collaborator operations used by the embedded
code, as oracles.  Layer handles are represented by strings. -/
structure Registry where
  lastLayer : String → Except String String
  releaseManifests : String → Except String (String × String)
  extractToolkitRelease : String → Except String DriverToolkitEntry
  getLayersDigests : String → Except String (String × List String × String)
  getLayerByDigest : String → String → String → Except String String

/-- Resolved metadata for one detected cluster version (`OCPVersionInfo`,
src/controllers/specialresourcemodule.go lines 88-95). -/
structure OCPVersionInfo where
  kernelVersion : String
  rtKernelVersion : String
  dtkImage : String
  osVersion : String
  osImage : String
  clusterVersion : String
deriving DecidableEq, Repr

/-- The Go zero value of `OCPVersionInfo`: every field is the empty string. -/
def zeroOCPVersionInfo : OCPVersionInfo :=
  { kernelVersion := "", rtKernelVersion := "", dtkImage := "", osVersion := "",
    osImage := "", clusterVersion := "" }

/-- Embeds `getVersionInfoFromImage` (src/controllers/specialresourcemodule.go
lines 175-200): last layer of the referenced image, release manifests
(cluster version and driver-toolkit image URL), last layer of the toolkit
image, toolkit release; any error propagates. -/
def getVersionInfoFromImage (reg : Registry) (entry : String) :
    Except String OCPVersionInfo :=
  match reg.lastLayer entry with
  | Except.error e => Except.error e
  | Except.ok manifestsLastLayer =>
    match reg.releaseManifests manifestsLastLayer with
    | Except.error e => Except.error e
    | Except.ok (version, dtkURL) =>
      match reg.lastLayer dtkURL with
      | Except.error e => Except.error e
      | Except.ok dtkLastLayer =>
        match reg.extractToolkitRelease dtkLastLayer with
        | Except.error e => Except.error e
        | Except.ok dtkEntry =>
          Except.ok
            { kernelVersion := dtkEntry.kernelFullVersion,
              rtKernelVersion := dtkEntry.rtKernelFullVersion,
              dtkImage := dtkURL,
              osVersion := dtkEntry.osVersion,
              osImage := entry,
              clusterVersion := version }

/-
Selector/Filter Engine and Version Resolver: `filterResources`,
`getOCPVersions` (src/controllers/specialresourcemodule.go lines 125-173 and
268-316).  Cluster objects are an abstract type `Obj`.
-/

/-- A watch-spec selector (`SpecialResourceModuleSelector`): a structural
path, an expected value and an exclusion flag. -/
structure Selector where
  path : String
  value : String
  exclude : Bool
deriving DecidableEq, Repr

/-- A watch specification (`SpecialResourceModuleWatch`): object kind, API
version, namespace (`nspace`), name (empty name means list all), the path
carrying candidate version/image strings and the selectors. -/
structure WatchSpec where
  kind : String
  apiVersion : String
  nspace : String
  name : String
  path : String
  selector : List Selector
deriving DecidableEq, Repr

/-- Result of `getAllResources`: Kubernetes `Get`/`List` may fail with a
not-found error (checked with `k8serrors.IsNotFound` by the caller), fail
with any other error, or return objects. -/
inductive RetrievalResult (Obj : Type) where
  | notFound
  | failed (e : String)
  | ok (objs : List Obj)

/-- The external collaborators of the version resolver.  `retrieve` stands
for `getAllResources` (Kubernetes `Get`/`List`); `getJSONPath` for
`watcher.GetJSONPath`, which extracts the list of values found at a
structural path in an object; `semverMatch` for `versionRegex` on the entry
string, returning the captured `major`/`minor` groups when the anchored
semver regular expression matches; `resp` for the upgrade-graph HTTP
exchange of `getImageFromVersion`; `registry` for the registry walker. -/
structure ResolveEnv (Obj : Type) where
  retrieve : WatchSpec → RetrievalResult Obj
  getJSONPath : String → Obj → Except String (List String)
  semverMatch : String → Option (String × String)
  resp : String → Except String (List VersionNode)
  registry : Registry

/-- The inner object scan of `filterResources` for one selector: extract the
candidate values at the selector path (an error aborts), set `found` when any
candidate equals the selector value, invert `found` when the selector
excludes, and keep the object when `found` holds.  Kept objects accumulate
into `acc` (`filteredObjects`), which is shared across selectors.  On a
`GetJSONPath` error the Go code returns the partial `filteredObjects`
together with the error; the caller aborts on the error and discards the
list, so the embedding returns only the error. -/
def filterObjsLoop {Obj : Type} (getJSONPath : String → Obj → Except String (List String))
    (sel : Selector) : List Obj → List Obj → Except String (List Obj)
  | [], acc => Except.ok acc
  | o :: rest, acc =>
    match getJSONPath sel.path o with
    | Except.error e => Except.error e
    | Except.ok candidates =>
      let found := candidates.contains sel.value
      let found := if sel.exclude then !found else found
      if found then filterObjsLoop getJSONPath sel rest (acc ++ [o])
      else filterObjsLoop getJSONPath sel rest acc

/-- The outer selector loop of `filterResources`: every selector re-scans the
original object list, accumulating kept objects (duplicate admission across
selectors is preserved). -/
def filterSelsLoop {Obj : Type} (getJSONPath : String → Obj → Except String (List String))
    (objs : List Obj) : List Selector → List Obj → Except String (List Obj)
  | [], acc => Except.ok acc
  | sel :: rest, acc =>
    match filterObjsLoop getJSONPath sel objs acc with
    | Except.error e => Except.error e
    | Except.ok acc2 => filterSelsLoop getJSONPath objs rest acc2

/-- Embeds `filterResources` (src/controllers/specialresourcemodule.go lines
146-173): an empty selector list is the identity, otherwise the selector loop
runs over an initially empty `filteredObjects`. -/
def filterResources {Obj : Type} (getJSONPath : String → Obj → Except String (List String))
    (selectors : List Selector) (objs : List Obj) : Except String (List Obj) :=
  if selectors.isEmpty then Except.ok objs
  else filterSelsLoop getJSONPath objs selectors []

/-- The version map built by `getOCPVersions`, keyed by cluster version, as
an association list in insertion order. -/
abbrev VMap : Type := List (String × OCPVersionInfo)

/-- Go map assignment `versionMap[k] = v`: replace the entry for `k` when
present, otherwise add one. -/
def vmapInsert (m : VMap) (k : String) (v : OCPVersionInfo) : VMap :=
  match m with
  | [] => [(k, v)]
  | p :: rest =>
    if p.fst == k then (k, v) :: rest else p :: vmapInsert rest k v

/-- Embeds Go `strings.Contains(element, "@")` and `strings.Contains(element,
":")` for one-character patterns: whether the character occurs in the
string. -/
def containsChar (s : String) (c : Char) : Bool := s.toList.contains c

/-- The classification of one candidate string inside the element loop of
`getOCPVersions`: a string matching the semver regular expression is
resolved through the upgrade graph (`getImageFromVersion`); else a string
containing `@` or `:` is already an image reference; else the
`"format error"` is produced. -/
def classifyElement {Obj : Type} (env : ResolveEnv Obj) (element : String) :
    Except String String :=
  match env.semverMatch element with
  | some (major, minor) => getImageFromVersion env.resp element major minor
  | none =>
    if containsChar element '@' || containsChar element ':' then Except.ok element
    else Except.error ("format error. " ++ element ++ " is not a valid image/version")

/-- The element loop of `getOCPVersions` over the candidate strings extracted
from one object: each element is classified (`classifyElement`, an error
aborts), the resolved image is walked (`getVersionInfoFromImage`, an error
aborts) and the version map entry for its cluster version is overwritten. -/
def processElements {Obj : Type} (env : ResolveEnv Obj) (vmap : VMap) :
    List String → Except String VMap
  | [] => Except.ok vmap
  | element :: rest =>
    match classifyElement env element with
    | Except.error e => Except.error e
    | Except.ok image =>
      match getVersionInfoFromImage env.registry image with
      | Except.error e => Except.error e
      | Except.ok info => processElements env (vmapInsert vmap info.clusterVersion info) rest

/-- The object loop of `getOCPVersions`: extracting the candidate strings at
the watch path may fail, in which case the Go code logs
`"Error when looking for path. Continue"` and skips the object (`continue`);
otherwise the element loop runs and its errors abort. -/
def processObjs {Obj : Type} (env : ResolveEnv Obj) (spec : WatchSpec) (vmap : VMap) :
    List Obj → Except String VMap
  | [] => Except.ok vmap
  | o :: rest =>
    match env.getJSONPath spec.path o with
    | Except.error _ => processObjs env spec vmap rest
    | Except.ok elements =>
      match processElements env vmap elements with
      | Except.error e => Except.error e
      | Except.ok vmap2 => processObjs env spec vmap2 rest

/-- The watch-spec loop of `getOCPVersions`: retrieval errors that are
not-found skip the spec (`continue`), any other retrieval error aborts, a
filtering error aborts, and the object loop threads the version map. -/
def processSpecs {Obj : Type} (env : ResolveEnv Obj) (vmap : VMap) :
    List WatchSpec → Except String VMap
  | [] => Except.ok vmap
  | spec :: rest =>
    match env.retrieve spec with
    | RetrievalResult.notFound => processSpecs env vmap rest
    | RetrievalResult.failed e => Except.error e
    | RetrievalResult.ok objs =>
      match filterResources env.getJSONPath spec.selector objs with
      | Except.error e => Except.error e
      | Except.ok objs2 =>
        match processObjs env spec vmap objs2 with
        | Except.error e => Except.error e
        | Except.ok vmap2 => processSpecs env vmap2 rest

/-- Embeds `getOCPVersions` (src/controllers/specialresourcemodule.go lines
268-316): the watch-spec loop starting from an empty version map. -/
def getOCPVersions {Obj : Type} (env : ResolveEnv Obj) (watchList : List WatchSpec) :
    Except String VMap :=
  processSpecs env [] watchList

/-
Update/delete partition of `Reconcile`
(src/controllers/specialresourcemodule.go lines 491-507).
-/

/-- Go map lookup `clusterVersions[resourceVersion]` on the resolved version
map. -/
def vmapLookup (m : VMap) (k : String) : Option OCPVersionInfo :=
  (m.find? (fun p => p.fst == k)).map (fun p => p.snd)

/-- Embeds the `updateList`/`deleteList` computation of `Reconcile`
(src/controllers/specialresourcemodule.go lines 491-502).  `statusVersions`
is the iteration order of the keys of `resource.Status.Versions`; for each
key present in the resolved map, its resolved data is appended to
`updateList`; for each absent key, the Go code appends `data` — which is the
zero value of `OCPVersionInfo`, since the comma-ok lookup failed — to
`deleteList`.  Afterwards every resolved entry is appended to `updateList`. -/
def buildUpdateDeleteLists (statusVersions : List String) (clusterVersions : VMap) :
    List OCPVersionInfo × List OCPVersionInfo :=
  let part := statusVersions.foldl
    (fun acc rv =>
      match vmapLookup clusterVersions rv with
      | some data => (acc.fst ++ [data], acc.snd)
      | none => (acc.fst, acc.snd ++ [zeroOCPVersionInfo]))
    ([], [])
  (part.fst ++ clusterVersions.map (fun p => p.snd), part.snd)

/-
Preflight Gate: `daemonSetPreflightCheck`, `handleYAMLsCheck`
(src/pkg/preflight/preflight.go lines 140-208).
-/

/-- The digest scan of `daemonSetPreflightCheck`, already reversed: the Go
loop runs `for i := len(digests)-1; i >= 0; i--`, so this loop receives
`digests.reverse`.  A layer-fetch failure is logged and turned into
`(false, nil)`; a layer without toolkit metadata is skipped (`continue`); the
first layer with toolkit metadata decides the verdict by comparing its kernel
full version with the upgrade kernel version, and scanning stops. -/
def scanLayers (reg : Registry) (repo auth upgradeKernelVersion : String) :
    List String → Except String Bool
  | [] => Except.ok false
  | d :: rest =>
    match reg.getLayerByDigest repo d auth with
    | Except.error _ => Except.ok false
    | Except.ok layer =>
      match reg.extractToolkitRelease layer with
      | Except.error _ => scanLayers reg repo auth upgradeKernelVersion rest
      | Except.ok dtk => Except.ok (dtk.kernelFullVersion == upgradeKernelVersion)

/-- Embeds `daemonSetPreflightCheck` (src/pkg/preflight/preflight.go lines
165-208).  The rendered DaemonSet is represented by the image list of its pod
template's containers (`ds.Spec.Template.Spec.Containers[i].Image`); the
YAML-to-struct conversion step, whose failure is a hard error before any
container access, is outside the claims and not modelled.  No containers is
the hard error `"invalid daemonset, no container  data present"` (message as
in the source); otherwise only the first container's image is inspected.  A
`GetLayersDigests` failure is logged and turned into `(false, nil)`. -/
def daemonSetPreflightCheck (reg : Registry) (containers : List String)
    (upgradeKernelVersion : String) : Except String Bool :=
  match containers with
  | [] => Except.error "invalid daemonset, no container  data present"
  | image :: _ =>
    match reg.getLayersDigests image with
    | Except.error _ => Except.ok false
    | Except.ok (repo, digests, auth) =>
      scanLayers reg repo auth upgradeKernelVersion digests.reverse

/-- A rendered object of the resource bundle, as `handleYAMLsCheck` sees it:
its kind, and (when it is a DaemonSet) the container images of its pod
template. -/
structure RenderedObject where
  kind : String
  containers : List String
deriving DecidableEq, Repr

/-- Embeds the object scan of `handleYAMLsCheck` (src/pkg/preflight/
preflight.go lines 140-163).  `verified` starts `true`; the loop breaks at
the first `BuildConfig` (skipping image verification, `verified` still
`true`) or at the first `DaemonSet` (running `daemonSetPreflightCheck`, whose
error is returned and whose verdict becomes `verified`); other kinds are
skipped.  The `GetObjectsFromYAML` step that produces the object list from
the rendered YAML (whose failure is a hard error) is outside the claims and
not modelled. -/
def handleYAMLsCheck (reg : Registry) (upgradeKernelVersion : String) :
    List RenderedObject → Except String Bool
  | [] => Except.ok true
  | o :: rest =>
    if o.kind == "BuildConfig" then Except.ok true
    else if o.kind == "DaemonSet" then
      daemonSetPreflightCheck reg o.containers upgradeKernelVersion
    else handleYAMLsCheck reg upgradeKernelVersion rest

/-
Node Correlator: `UpdateInfo` (src/pkg/upgrade/upgrade.go lines 94-149).
-/

/-- Per running-kernel-version node classification (`upgrade.NodeVersion`). -/
structure NodeVersion where
  osVersion : String
  osMajor : String
  osMajorMinor : String
  clusterVersion : String
  driverToolkit : DriverToolkitEntry
deriving DecidableEq, Repr

/-- The node-version map `map[string]NodeVersion`, keyed by kernel full
version, as an association list. -/
abbrev NVMap : Type := List (String × NodeVersion)

/-- Go map lookup `info[key]` on the node-version map. -/
def lookupNV (info : NVMap) (k : String) : Option NodeVersion :=
  (info.find? (fun p => p.fst == k)).map (fun p => p.snd)

/-- Go map assignment `info[key] = v` on the node-version map. -/
def insertNV (info : NVMap) (k : String) (v : NodeVersion) : NVMap :=
  match info with
  | [] => [(k, v)]
  | p :: rest =>
    if p.fst == k then (k, v) :: rest else p :: insertNV rest k v

/-- Whether a character list starts with another one (helper for the
embedding of Go `strings.Contains`). -/
def startsWithChars : List Char → List Char → Bool
  | _, [] => true
  | [], _ :: _ => false
  | a :: as, b :: bs => a == b && startsWithChars as bs

/-- Whether `sub` occurs as a contiguous run inside a character list (helper
for the embedding of Go `strings.Contains`). -/
def hasInfixChars (sub : List Char) : List Char → Bool
  | [] => startsWithChars [] sub
  | a :: as => startsWithChars (a :: as) sub || hasInfixChars sub as

/-- Embeds Go `strings.Contains(s, sub)`: `sub` occurs as a substring of
`s`. -/
def containsSubstr (s sub : String) : Bool := hasInfixChars sub.toList s.toList

/-- The canonical architecture name used by `UpdateInfo`: `runtime.GOARCH`
with `amd64` mapped to `x86_64`, every other value passed through.  The
running architecture is an ambient input and is taken as a parameter. -/
def canonicalArch (runningArch : String) : String :=
  if runningArch == "amd64" then "x86_64" else runningArch

/-- The architecture-suffix normalization of `UpdateInfo` (src/pkg/upgrade/
upgrade.go lines 98-106): when the canonical architecture name is not
contained in the toolkit's kernel full version, `"." ++ arch` is appended to
both the kernel and the RT-kernel full version. -/
def normalizeDTK (runningArch : String) (dtk : DriverToolkitEntry) : DriverToolkitEntry :=
  let arch := canonicalArch runningArch
  if !(containsSubstr dtk.kernelFullVersion arch) then
    { dtk with kernelFullVersion := dtk.kernelFullVersion ++ "." ++ arch,
               rtKernelFullVersion := dtk.rtKernelFullVersion ++ "." ++ arch }
  else dtk

/-- Modelled from the spec: `exit.OnError` (pkg/exit, whose source is not
under src/) terminates the process when handed a non-nil error — §4.5
"mismatch is fatal — abort, do not attempt to reconcile silently".  The
fatal termination is modelled as aborting the enclosing computation with the
error message; since the call never returns, the result type is arbitrary. -/
def exitOnError {α : Type} (msg : String) : Except String α := Except.error msg

/-- The mismatch message built by `UpdateInfo`. -/
def mismatchMsg (osNFD osDTK : String) : String :=
  "OSVersion mismatch NFD: " ++ osNFD ++ " vs. DTK: " ++ osDTK

/-- The enrichment performed by a matched correlation branch of `UpdateInfo`:
the record's `OSVersion` is overwritten with the toolkit's and the toolkit
entry is attached (`nodeVersion.OSVersion = dtk.OSVersion;
nodeVersion.DriverToolkit = dtk`). -/
def enrichNV (dtk : DriverToolkitEntry) (nv : NodeVersion) : NodeVersion :=
  { nv with osVersion := dtk.osVersion, driverToolkit := dtk }

/-- One of the two identical key-correlation branches of `UpdateInfo`
(src/pkg/upgrade/upgrade.go lines 110-125 for the kernel key, 127-142 for the
RT-kernel key): when `key` is present in the map, a differing `OSVersion` is
fatal (`exit.OnError`), otherwise the record is enriched (`enrichNV`) and
`match` is set. -/
def correlateKey (info : NVMap) (dtk : DriverToolkitEntry) (osDTK key : String) :
    Except String (NVMap × Bool) :=
  match lookupNV info key with
  | none => Except.ok (info, false)
  | some nv =>
    if nv.osVersion != osDTK then exitOnError (mismatchMsg nv.osVersion osDTK)
    else Except.ok (insertNV info key (enrichNV dtk nv), true)

/-- The body of `UpdateInfo` after architecture normalization (src/pkg/
upgrade/upgrade.go lines 108-148): `osDTK` is the toolkit's OS version, both
the kernel and the RT-kernel keys are correlated in order on the
successively updated map, and when neither key matched the `"DTK kernel not
found running in the cluster"` error is returned. -/
def updateInfoCore (info : NVMap) (dtk : DriverToolkitEntry) : Except String NVMap :=
  match correlateKey info dtk dtk.osVersion dtk.kernelFullVersion with
  | Except.error e => Except.error e
  | Except.ok (info1, m1) =>
    match correlateKey info1 dtk dtk.osVersion dtk.rtKernelFullVersion with
    | Except.error e => Except.error e
    | Except.ok (info2, m2) =>
      if !m1 && !m2 then
        Except.error ("DTK kernel not found running in the cluster. kernelFullVersion: "
          ++ dtk.kernelFullVersion ++ ". rtKernelFullVersion: " ++ dtk.rtKernelFullVersion)
      else Except.ok info2

/-- Embeds `UpdateInfo` (src/pkg/upgrade/upgrade.go lines 94-149): the image
URL is stored into the toolkit entry, the architecture suffix is normalized
(`normalizeDTK`), and the two-key correlation runs (`updateInfoCore`).  The
`osDTK` value is read before normalization in the Go source, but
normalization never changes the OS version, so using the normalized entry's
OS version is equivalent (`normalizeDTK_osVersion`). -/
def UpdateInfo (runningArch : String) (info : NVMap) (dtk0 : DriverToolkitEntry)
    (imageURL : String) : Except String NVMap :=
  updateInfoCore info (normalizeDTK runningArch { dtk0 with imageURL := imageURL })

/-
Concrete fixtures used by the theorems below.
-/

/-- The Go zero value of `registry.DriverToolkitEntry`. -/
def zeroDriverToolkitEntry : DriverToolkitEntry :=
  { imageURL := "", kernelFullVersion := "", rtKernelFullVersion := "", osVersion := "" }

/-- Upgrade-graph responses for the 4.10 channels: the fast channel matches
version 4.10.3 with payload `imageA`, the stable channel has no nodes, the
candidate channel matches 4.10.3 with payload `imageB`. -/
def respFastAndCandidate : String → Except String (List VersionNode) := fun chq =>
  if chq == "fast-4.10" then Except.ok [{ version := "4.10.3", payload := "imageA" }]
  else if chq == "stable-4.10" then Except.ok []
  else if chq == "candidate-4.10" then Except.ok [{ version := "4.10.3", payload := "imageB" }]
  else Except.error "unexpected channel"

/-- A registry oracle for which every operation fails: the registry is
unreachable. -/
def regUnreachable : Registry :=
  { lastLayer := fun _ => Except.error "registry down",
    releaseManifests := fun _ => Except.error "registry down",
    extractToolkitRelease := fun _ => Except.error "registry down",
    getLayersDigests := fun _ => Except.error "registry down",
    getLayerByDigest := fun _ _ _ => Except.error "registry down" }

/-- A registry oracle that enumerates one digest for the image but fails to
fetch the layer behind it. -/
def regLayerFetchFails : Registry :=
  { regUnreachable with getLayersDigests := fun _ => Except.ok ("repo", ["d0"], "auth") }

/-- A registry oracle for a single-layer workload image whose layer embeds
toolkit metadata for kernel `5.14.0-70.13.1.el9_0.x86_64`. -/
def regOneLayerDTK : Registry :=
  { lastLayer := fun _ => Except.error "unused",
    releaseManifests := fun _ => Except.error "unused",
    extractToolkitRelease := fun _ => Except.ok
      { imageURL := "", kernelFullVersion := "5.14.0-70.13.1.el9_0.x86_64",
        rtKernelFullVersion := "", osVersion := "9.0" },
    getLayersDigests := fun _ => Except.ok ("repo", ["d0"], "auth"),
    getLayerByDigest := fun _ _ _ => Except.ok "layer0" }

/-- A watch spec naming one object, with a version path and no selectors. -/
def specPlain : WatchSpec :=
  { kind := "ConfigMap", apiVersion := "v1", nspace := "ns", name := "cm",
    path := "spec.version", selector := [] }

/-- A resolution environment over unit objects: retrieval finds one object,
but extracting the candidate strings at the watch path fails. -/
def envBadPath : ResolveEnv Unit :=
  { retrieve := fun _ => RetrievalResult.ok [()],
    getJSONPath := fun _ _ => Except.error "bad jsonpath",
    semverMatch := fun _ => none,
    resp := fun _ => Except.error "offline",
    registry := regUnreachable }

/-- A resolution environment whose every retrieval reports not-found. -/
def envNotFound : ResolveEnv Unit :=
  { envBadPath with retrieve := fun _ => RetrievalResult.notFound }

/-- A resolution environment whose every retrieval fails with an error that
is not a not-found. -/
def envRetrieveFails : ResolveEnv Unit :=
  { envBadPath with retrieve := fun _ => RetrievalResult.failed "server exploded" }

/-- A resolution environment that extracts the candidate string
`not-an-image`, which is neither a semantic version nor an image
reference. -/
def envFormatError : ResolveEnv Unit :=
  { envBadPath with getJSONPath := fun _ _ => Except.ok ["not-an-image"] }

/-- A toolkit entry whose kernel versions carry no architecture suffix. -/
def dtkBare : DriverToolkitEntry :=
  { imageURL := "", kernelFullVersion := "4.18.0-305.el8",
    rtKernelFullVersion := "4.18.0-305.rt7.el8", osVersion := "8.4" }

/-- A toolkit entry whose kernel version already carries the `x86_64` suffix
while its RT-kernel version does not. -/
def dtkKernelSuffixed : DriverToolkitEntry :=
  { imageURL := "", kernelFullVersion := "4.18.0-305.el8.x86_64",
    rtKernelFullVersion := "4.18.0-305.rt7.el8", osVersion := "8.4" }

/-- A node record whose node-derived OS version is 8.5. -/
def nvOS85 : NodeVersion :=
  { osVersion := "8.5", osMajor := "rhel8", osMajorMinor := "rhel8.5",
    clusterVersion := "4.9.1", driverToolkit := zeroDriverToolkitEntry }

/-- A node-version map with one running kernel, derived from node labels that
disagree with `dtkBare` about the OS version (8.5 vs 8.4). -/
def infoMismatch : NVMap := [("4.18.0-305.el8.x86_64", nvOS85)]

/-
Theorems settling the claims.
-/

/-- C1, evaluated at the failing input: for a bundle whose single state unit
`0000-state-a` is already listed in the supplied reconciled set (the
persisted status is complete), invoking `reconcileChart` again performs zero
calls to the templating collaborator (the attempted-applies trace is empty) —
but it returns the empty unit list, not the previous set: the partition loop
accumulates the skipped name `0000-state-a` into `result`
(second conjunct), and the final `return nil, nil` discards it. -/
theorem C1_complete_pass_eval :
    reconcileChart (fun _ => true) (fun _ => none) ["0000-state-a"] ["0000-state-a"]
      = (([], none), [])
    ∧ skippedUnits (fun _ => true) ["0000-state-a"] ["0000-state-a"] = ["0000-state-a"] :=
  ⟨rfl, rfl⟩

/-- C3, evaluated at the failing input: with a persisted status entry for
version `4.12.5` and an empty newly resolved version map, the computed
delete list is `[zeroOCPVersionInfo]` — one entry per absent version, but it
is the zero value appended by the failed comma-ok lookup, whose
`clusterVersion` is the empty string rather than `4.12.5`: the identifying
version of the delete candidate is lost. -/
theorem C3_delete_list_eval :
    buildUpdateDeleteLists ["4.12.5"] [] = ([], [zeroOCPVersionInfo])
    ∧ zeroOCPVersionInfo.clusterVersion = "" :=
  ⟨rfl, rfl⟩

/-- C10: a rendered DaemonSet whose pod template declares no containers makes
the preflight check fail with the hard error `"invalid daemonset, no
container  data present"` (never a silent false), and with one or more
containers the verification outcome depends only on the first container's
image: the images of any additional containers are never inspected. -/
theorem C10_first_container_only :
    (∀ (reg : Registry) (k : String),
      daemonSetPreflightCheck reg [] k
        = Except.error "invalid daemonset, no container  data present")
    ∧ (∀ (reg : Registry) (k image : String) (rest rest2 : List String),
      daemonSetPreflightCheck reg (image :: rest) k
        = daemonSetPreflightCheck reg (image :: rest2) k) :=
  ⟨fun _ _ => rfl, fun _ _ _ _ _ => rfl⟩

/-- C2 is false on the code: with a registry whose layer-digest enumeration
fails, `daemonSetPreflightCheck` logs the failure and returns the non-error
verdict `(false, nil)` instead of a hard error — the registry failure is
converted into a plain `false` verdict. -/
theorem C2_counterexample :
    regUnreachable.getLayersDigests "img" = Except.error "registry down"
    ∧ daemonSetPreflightCheck regUnreachable ["img"] "k" = Except.ok false :=
  ⟨rfl, rfl⟩

/-- C2 amended: during the preflight verification of a workload image, any
registry/layer-fetch failure (enumerating the image's layer digests, or
fetching a layer by digest) is converted into the non-error verdict `false`,
indistinguishable in the returned values from a "no metadata found" result;
it is never reported as a hard error to the caller. -/
theorem C2_amended :
    (∀ (reg : Registry) (image k e : String) (rest : List String),
      reg.getLayersDigests image = Except.error e →
      daemonSetPreflightCheck reg (image :: rest) k = Except.ok false)
    ∧ (∀ (reg : Registry) (repo auth k d e : String) (rest : List String),
      reg.getLayerByDigest repo d auth = Except.error e →
      scanLayers reg repo auth k (d :: rest) = Except.ok false) := by
  constructor
  · intro reg image k e rest h
    simp [daemonSetPreflightCheck, h]
  · intro reg repo auth k d e rest h
    simp [scanLayers, h]

/-- Witness for C2 amended: the unreachable registry fails the digest
enumeration, and the digest-only registry fails the layer fetch; in both
cases the check returns the plain `false` verdict. -/
theorem C2_witness :
    (regUnreachable.getLayersDigests "img" = Except.error "registry down"
      ∧ daemonSetPreflightCheck regUnreachable ["img"] "k" = Except.ok false)
    ∧ (regLayerFetchFails.getLayerByDigest "repo" "d0" "auth" = Except.error "registry down"
      ∧ scanLayers regLayerFetchFails "repo" "auth" "k" ["d0"] = Except.ok false) :=
  ⟨⟨rfl, C2_amended.1 regUnreachable "img" "k" "registry down" [] rfl⟩,
   ⟨rfl, C2_amended.2 regLayerFetchFails "repo" "auth" "k" "d0" "registry down" [] rfl⟩⟩

/-- C7 is false on the code: a rendered bundle containing both a DaemonSet
and a BuildConfig is treated differently depending on object order.  With
the DaemonSet first, its image layer walk runs (here the embedded toolkit
kernel differs from the upgrade kernel, so verification fails) even though a
BuildConfig is present; with the BuildConfig first, verification is
skipped. -/
theorem C7_counterexample :
    handleYAMLsCheck regOneLayerDTK "4.18.0-80.x86_64"
      [{ kind := "DaemonSet", containers := ["img"] },
       { kind := "BuildConfig", containers := [] }] = Except.ok false
    ∧ handleYAMLsCheck regOneLayerDTK "4.18.0-80.x86_64"
      [{ kind := "BuildConfig", containers := [] },
       { kind := "DaemonSet", containers := ["img"] }] = Except.ok true :=
  ⟨rfl, rfl⟩

/-- An object of another kind is skipped by the `handleYAMLsCheck` scan. -/
theorem handleYAMLsCheck_skip (reg : Registry) (k : String) (o : RenderedObject)
    (os : List RenderedObject) (h1 : o.kind ≠ "BuildConfig") (h2 : o.kind ≠ "DaemonSet") :
    handleYAMLsCheck reg k (o :: os) = handleYAMLsCheck reg k os := by
  simp [handleYAMLsCheck, h1, h2]

/-- C7 amended: the object scan stops at the first object whose kind is
BuildConfig or DaemonSet.  The preflight image verification is skipped
exactly when a BuildConfig appears before any DaemonSet among the rendered
objects; when a DaemonSet appears before any BuildConfig, its per-image
check runs even though a BuildConfig is present later in the bundle. -/
theorem C7_amended :
    (∀ (reg : Registry) (k : String) (bc : RenderedObject) (rest : List RenderedObject),
      bc.kind = "BuildConfig" →
      ∀ (pre : List RenderedObject),
        (∀ o ∈ pre, o.kind ≠ "BuildConfig" ∧ o.kind ≠ "DaemonSet") →
        handleYAMLsCheck reg k (pre ++ bc :: rest) = Except.ok true)
    ∧ (∀ (reg : Registry) (k : String) (ds : RenderedObject) (rest : List RenderedObject),
      ds.kind = "DaemonSet" →
      ∀ (pre : List RenderedObject),
        (∀ o ∈ pre, o.kind ≠ "BuildConfig" ∧ o.kind ≠ "DaemonSet") →
        handleYAMLsCheck reg k (pre ++ ds :: rest)
          = daemonSetPreflightCheck reg ds.containers k) := by
  constructor
  · intro reg k bc rest hbc pre
    induction pre with
    | nil =>
      intro _
      simp [handleYAMLsCheck, hbc]
    | cons o os ih =>
      intro hpre
      have ho := hpre o (List.mem_cons_self o os)
      have hos : ∀ o2 ∈ os, o2.kind ≠ "BuildConfig" ∧ o2.kind ≠ "DaemonSet" :=
        fun o2 h2 => hpre o2 (List.mem_cons_of_mem o h2)
      rw [List.cons_append, handleYAMLsCheck_skip reg k o _ ho.1 ho.2]
      exact ih hos
  · intro reg k ds rest hds pre
    induction pre with
    | nil =>
      intro _
      simp [handleYAMLsCheck, hds]
    | cons o os ih =>
      intro hpre
      have ho := hpre o (List.mem_cons_self o os)
      have hos : ∀ o2 ∈ os, o2.kind ≠ "BuildConfig" ∧ o2.kind ≠ "DaemonSet" :=
        fun o2 h2 => hpre o2 (List.mem_cons_of_mem o h2)
      rw [List.cons_append, handleYAMLsCheck_skip reg k o _ ho.1 ho.2]
      exact ih hos

/-- Witness for C7 amended: with a Namespace object ahead of them, a leading
BuildConfig skips verification, and a leading DaemonSet runs its per-image
check. -/
theorem C7_witness :
    (∀ o ∈ [({ kind := "Namespace", containers := [] } : RenderedObject)],
      o.kind ≠ "BuildConfig" ∧ o.kind ≠ "DaemonSet")
    ∧ handleYAMLsCheck regOneLayerDTK "4.18.0-80.x86_64"
        [{ kind := "Namespace", containers := [] }, { kind := "BuildConfig", containers := [] }]
      = Except.ok true
    ∧ handleYAMLsCheck regOneLayerDTK "4.18.0-80.x86_64"
        [{ kind := "Namespace", containers := [] }, { kind := "DaemonSet", containers := ["img"] }]
      = daemonSetPreflightCheck regOneLayerDTK ["img"] "4.18.0-80.x86_64" := by
  refine ⟨by decide, ?_, ?_⟩
  · exact C7_amended.1 regOneLayerDTK "4.18.0-80.x86_64"
      { kind := "BuildConfig", containers := [] } [] rfl
      [{ kind := "Namespace", containers := [] }] (by decide)
  · exact C7_amended.2 regOneLayerDTK "4.18.0-80.x86_64"
      { kind := "DaemonSet", containers := ["img"] } [] rfl
      [{ kind := "Namespace", containers := [] }] (by decide)

/-- The apply loop aborts at the first failing unit, returning the
accumulated result extended by the units that succeeded before it. -/
theorem applyLoop_firstFailure (run : String → Option String) (f e : String)
    (hf : run f = some e) :
    ∀ (pre : List String), (∀ u ∈ pre, run u = none) →
    ∀ (post result applied : List String),
      applyLoop run (pre ++ f :: post) result applied
        = ((result ++ pre, some e), applied ++ (pre ++ [f])) := by
  intro pre
  induction pre with
  | nil =>
    intro _ post result applied
    simp [applyLoop, hf]
  | cons u us ih =>
    intro hpre post result applied
    have hu : run u = none := hpre u (List.mem_cons_self u us)
    have hus : ∀ v ∈ us, run v = none := fun v hv => hpre v (List.mem_cons_of_mem u hv)
    rw [List.cons_append]
    rw [show applyLoop run (u :: (us ++ f :: post)) result applied
        = applyLoop run (us ++ f :: post) (result ++ [u]) (applied ++ [u]) by
      simp [applyLoop, hu]]
    rw [ih hus post (result ++ [u]) (applied ++ [u])]
    simp

/-- C6: on the first failing apply, the reconciliation pass aborts
immediately — only the units up to and including the failing one were handed
to the templating collaborator — and returns exactly the previously
reconciled state-unit names (those of the supplied set that are state
templates of the bundle) followed by the names of the units successfully
applied earlier in the same pass.  In particular, with
`reconciledInput = ["10-a"]` and `20-b` failing, the returned set still
contains `10-a` and contains neither `20-b` nor `30-c` (see the witness). -/
theorem C6_resumption (valid : String → Bool) (run : String → Option String)
    (templates reconciledInput pre post : List String) (f e : String)
    (hsplit : sortNames (pendingUnits valid templates reconciledInput) = pre ++ f :: post)
    (hpre : ∀ u ∈ pre, run u = none) (hf : run f = some e) :
    reconcileChart valid run templates reconciledInput
      = ((skippedUnits valid templates reconciledInput ++ pre, some e), pre ++ [f]) := by
  unfold reconcileChart
  rw [hsplit, applyLoop_firstFailure run f e hf pre hpre post
    (skippedUnits valid templates reconciledInput) []]
  simp

/-- Witness for C6: with templates `["20-b", "10-a", "30-c"]`, the supplied
reconciled set `["10-a"]` and `20-b` failing to apply, the pass returns
`["10-a"]` — `10-a` is retained, `20-b` and `30-c` are absent — and only
`20-b` was handed to the templating collaborator. -/
theorem C6_witness :
    sortNames (pendingUnits (fun _ => true) ["20-b", "10-a", "30-c"] ["10-a"])
      = [] ++ "20-b" :: ["30-c"]
    ∧ (fun t => if t == "20-b" then some "boom" else none) "20-b" = some "boom"
    ∧ reconcileChart (fun _ => true) (fun t => if t == "20-b" then some "boom" else none)
        ["20-b", "10-a", "30-c"] ["10-a"]
      = ((["10-a"], some "boom"), ["20-b"])
    ∧ "10-a" ∈ ["10-a"] ∧ "20-b" ∉ ["10-a"] ∧ "30-c" ∉ (["10-a"] : List String) := by
  refine ⟨by decide, by decide, ?_, by decide, by decide, by decide⟩
  exact (C6_resumption (fun _ => true) (fun t => if t == "20-b" then some "boom" else none)
    ["20-b", "10-a", "30-c"] ["10-a"] [] ["30-c"] "20-b" "boom"
    (by decide) (by decide) (by decide)).trans (by decide)

/-- A character list starts with itself followed by anything. -/
theorem startsWithChars_append_self (l t : List Char) : startsWithChars (l ++ t) l = true := by
  induction l with
  | nil => cases t <;> rfl
  | cons a as ih => simp [startsWithChars, ih]

/-- A character list starts with itself. -/
theorem startsWithChars_self (l : List Char) : startsWithChars l l = true := by
  have h := startsWithChars_append_self l []
  simpa using h

/-- A character list occurs inside anything that ends with it. -/
theorem hasInfixChars_append_self (sub l : List Char) : hasInfixChars sub (l ++ sub) = true := by
  induction l with
  | nil =>
    cases sub with
    | nil => rfl
    | cons b bs => simp [hasInfixChars, startsWithChars_self]
  | cons a as ih => simp [hasInfixChars, ih]

/-- A string obtained by appending `"." ++ c` contains `c` as a substring. -/
theorem containsSubstr_append_self (k c : String) : containsSubstr (k ++ "." ++ c) c = true := by
  show hasInfixChars c.data (k ++ "." ++ c).data = true
  rw [String.data_append, String.data_append]
  rw [show k.data ++ ".".data ++ c.data = (k.data ++ ".".data) ++ c.data from rfl]
  exact hasInfixChars_append_self c.data (k.data ++ ".".data)

/-- C9 is false on the code as stated: for running architecture `amd64` and a
toolkit whose kernel version already carries the `x86_64` suffix while its
RT-kernel version `4.18.0-305.rt7.el8` does not contain `x86_64` at all (so
in particular the canonical name is not a suffix of it), the normalization
leaves both strings unchanged: the guard consults only the kernel string, so
no suffix is appended to the RT-kernel string even though the canonical name
is not present in it. -/
theorem C9_counterexample :
    normalizeDTK "amd64" dtkKernelSuffixed = dtkKernelSuffixed
    ∧ containsSubstr dtkKernelSuffixed.rtKernelFullVersion (canonicalArch "amd64") = false :=
  ⟨rfl, by decide⟩

/-- C9 amended: the normalization appends `"." ++ canonical arch` (amd64
mapped to x86_64, others passed through) to both the kernel and the
RT-kernel version strings exactly when the canonical name does not occur as
a substring of the kernel version string — the RT-kernel string is not
consulted by the guard.  The kernel value used for matching therefore gains
the suffix at most once, and repeated correlation calls never append it
twice (the normalization is idempotent); e.g. running arch `amd64` and
kernel `4.18.0-305.el8` match using `4.18.0-305.el8.x86_64` (see the
witness). -/
theorem C9_amended (runningArch : String) (dtk : DriverToolkitEntry) :
    (containsSubstr dtk.kernelFullVersion (canonicalArch runningArch) = true →
      normalizeDTK runningArch dtk = dtk)
    ∧ (containsSubstr dtk.kernelFullVersion (canonicalArch runningArch) = false →
      normalizeDTK runningArch dtk
        = { dtk with
            kernelFullVersion := dtk.kernelFullVersion ++ "." ++ canonicalArch runningArch,
            rtKernelFullVersion := dtk.rtKernelFullVersion ++ "." ++ canonicalArch runningArch })
    ∧ normalizeDTK runningArch (normalizeDTK runningArch dtk) = normalizeDTK runningArch dtk := by
  refine ⟨fun h => ?_, fun h => ?_, ?_⟩
  · simp [normalizeDTK, h]
  · simp [normalizeDTK, h]
  · cases hc : containsSubstr dtk.kernelFullVersion (canonicalArch runningArch) with
    | true => simp [normalizeDTK, hc]
    | false => simp [normalizeDTK, hc, containsSubstr_append_self]

/-- Witness for C9 amended: running arch `amd64` and kernel `4.18.0-305.el8`
gain the suffix once, matching on `4.18.0-305.el8.x86_64`, and a repeated
call appends nothing further. -/
theorem C9_witness :
    containsSubstr dtkBare.kernelFullVersion (canonicalArch "amd64") = false
    ∧ normalizeDTK "amd64" dtkBare
        = { dtkBare with
            kernelFullVersion := "4.18.0-305.el8.x86_64",
            rtKernelFullVersion := "4.18.0-305.rt7.el8.x86_64" }
    ∧ normalizeDTK "amd64" (normalizeDTK "amd64" dtkBare) = normalizeDTK "amd64" dtkBare := by
  refine ⟨by decide, ?_, (C9_amended "amd64" dtkBare).2.2⟩
  exact ((C9_amended "amd64" dtkBare).2.1 (by decide)).trans (by decide)

/-- A payload returned by the node scan is never the empty string (the scan
requires `len(version.Payload) > 0`). -/
theorem findNodePayload_ne_empty (full p : String) (nodes : List VersionNode)
    (h : findNodePayload full nodes = some p) : (p == "") = false := by
  unfold findNodePayload at h
  cases hfind : nodes.find? (fun n => n.version == full && !(n.payload == "")) with
  | none => rw [hfind] at h; cases h
  | some n =>
    rw [hfind] at h
    simp at h
    have hp := List.find?_some hfind
    have h2 : (!(n.payload == "")) = true := ((Bool.and_eq_true _ _).mp hp).2
    rw [← h]
    cases hx : (n.payload == "") with
    | false => rfl
    | true => rw [hx] at h2; exact Bool.noConfusion h2

/-- C4 is false on the code as stated: for version `4.10.3`, the fast channel
matches with payload `imageA`, yet the returned image is `imageB`, the match
from the later candidate channel — a match found in an earlier channel is
replaced by a match from a later channel. -/
theorem C4_counterexample :
    findNodePayload "4.10.3" [{ version := "4.10.3", payload := "imageA" }] = some "imageA"
    ∧ getImageFromVersion respFastAndCandidate "4.10.3" "4" "10" = Except.ok "imageB"
    ∧ ("imageB" : String) ≠ "imageA" :=
  ⟨rfl, rfl, by decide⟩

/-- C4 amended: resolving a valid semantic-version string queries the three
channels `fast`, `stable`, `candidate` in that fixed order (a channel error
aborts immediately); within each channel the first graph node with an exact
full-version match and non-empty payload gives that channel's match; and the
returned image is the match of the last channel that has one — a later
channel's match replaces an earlier channel's (`lastMatchWins`).  If no
channel matches, the distinct `"version ... not found"` error is returned. -/
theorem C4_amended (resp : String → Except String (List VersionNode))
    (full major minor : String) (nf ns nc : List VersionNode)
    (hf : resp (channelQuery "fast" major minor) = Except.ok nf)
    (hs : resp (channelQuery "stable" major minor) = Except.ok ns)
    (hc : resp (channelQuery "candidate" major minor) = Except.ok nc) :
    getImageFromVersion resp full major minor
      = match lastMatchWins (findNodePayload full nf) (findNodePayload full ns)
          (findNodePayload full nc) with
        | some p => Except.ok p
        | none => Except.error ("version " ++ full ++ " not found") := by
  simp only [getImageFromVersion, stepChannel, hf, hs, hc]
  cases hmf : findNodePayload full nf with
  | none =>
    cases hms : findNodePayload full ns with
    | none =>
      cases hmc : findNodePayload full nc with
      | none => simp [lastMatchWins]
      | some p => simp [lastMatchWins, findNodePayload_ne_empty full p nc hmc]
    | some p =>
      cases hmc : findNodePayload full nc with
      | none => simp [lastMatchWins, findNodePayload_ne_empty full p ns hms]
      | some q => simp [lastMatchWins, findNodePayload_ne_empty full q nc hmc]
  | some p =>
    cases hms : findNodePayload full ns with
    | none =>
      cases hmc : findNodePayload full nc with
      | none => simp [lastMatchWins, findNodePayload_ne_empty full p nf hmf]
      | some q => simp [lastMatchWins, findNodePayload_ne_empty full q nc hmc]
    | some q =>
      cases hmc : findNodePayload full nc with
      | none => simp [lastMatchWins, findNodePayload_ne_empty full q ns hms]
      | some r => simp [lastMatchWins, findNodePayload_ne_empty full r nc hmc]

/-- Witness for C4 amended: with the fast channel matching `imageA`, the
stable channel empty and the candidate channel matching `imageB`, the
returned image is `imageB`. -/
theorem C4_witness :
    respFastAndCandidate (channelQuery "fast" "4" "10")
      = Except.ok [{ version := "4.10.3", payload := "imageA" }]
    ∧ respFastAndCandidate (channelQuery "stable" "4" "10") = Except.ok []
    ∧ respFastAndCandidate (channelQuery "candidate" "4" "10")
      = Except.ok [{ version := "4.10.3", payload := "imageB" }]
    ∧ getImageFromVersion respFastAndCandidate "4.10.3" "4" "10" = Except.ok "imageB" := by
  refine ⟨rfl, rfl, rfl, ?_⟩
  exact (C4_amended respFastAndCandidate "4.10.3" "4" "10"
    [{ version := "4.10.3", payload := "imageA" }] []
    [{ version := "4.10.3", payload := "imageB" }] rfl rfl rfl).trans (by rfl)

/-- C5 is false on the code as stated: with one watch spec whose single
retrieved object fails candidate-string extraction at the declared path, the
resolution does not abort — it logs, skips the object and returns the empty
version map without error. -/
theorem C5_counterexample :
    envBadPath.retrieve specPlain = RetrievalResult.ok [()]
    ∧ envBadPath.getJSONPath specPlain.path () = Except.error "bad jsonpath"
    ∧ getOCPVersions envBadPath [specPlain] = Except.ok [] :=
  ⟨rfl, rfl, rfl⟩

/-- C5 amended: version resolution aborts with the error, returning no
partial version map, when retrieval fails other than not-found, when
filtering fails, when classification/graph lookup fails, or when image
walking fails; the recoverable exceptions are a not-found on retrieval,
which skips that watch spec, and an error extracting the candidate strings
at the declared path, which skips that object. -/
theorem C5_amended :
    (∀ (Obj : Type) (env : ResolveEnv Obj) (vmap : VMap) (spec : WatchSpec)
      (rest : List WatchSpec),
      env.retrieve spec = RetrievalResult.notFound →
      processSpecs env vmap (spec :: rest) = processSpecs env vmap rest)
    ∧ (∀ (Obj : Type) (env : ResolveEnv Obj) (vmap : VMap) (spec : WatchSpec)
      (rest : List WatchSpec) (e : String),
      env.retrieve spec = RetrievalResult.failed e →
      processSpecs env vmap (spec :: rest) = Except.error e)
    ∧ (∀ (Obj : Type) (env : ResolveEnv Obj) (vmap : VMap) (spec : WatchSpec)
      (rest : List WatchSpec) (objs : List Obj) (e : String),
      env.retrieve spec = RetrievalResult.ok objs →
      filterResources env.getJSONPath spec.selector objs = Except.error e →
      processSpecs env vmap (spec :: rest) = Except.error e)
    ∧ (∀ (Obj : Type) (env : ResolveEnv Obj) (spec : WatchSpec) (vmap : VMap)
      (o : Obj) (rest : List Obj) (e : String),
      env.getJSONPath spec.path o = Except.error e →
      processObjs env spec vmap (o :: rest) = processObjs env spec vmap rest)
    ∧ (∀ (Obj : Type) (env : ResolveEnv Obj) (vmap : VMap) (element : String)
      (rest : List String) (e : String),
      classifyElement env element = Except.error e →
      processElements env vmap (element :: rest) = Except.error e)
    ∧ (∀ (Obj : Type) (env : ResolveEnv Obj) (vmap : VMap) (element image : String)
      (rest : List String) (e : String),
      classifyElement env element = Except.ok image →
      getVersionInfoFromImage env.registry image = Except.error e →
      processElements env vmap (element :: rest) = Except.error e) := by
  refine ⟨?_, ?_, ?_, ?_, ?_, ?_⟩
  · intro Obj env vmap spec rest h
    simp [processSpecs, h]
  · intro Obj env vmap spec rest e h
    simp [processSpecs, h]
  · intro Obj env vmap spec rest objs e h1 h2
    simp [processSpecs, h1, h2]
  · intro Obj env spec vmap o rest e h
    simp [processObjs, h]
  · intro Obj env vmap element rest e h
    simp [processElements, h]
  · intro Obj env vmap element image rest e h1 h2
    simp [processElements, h1, h2]

/-- Witness for C5 amended: concrete environments over unit objects
exhibiting the not-found skip, the hard retrieval abort, the path-extraction
skip and the classification abort. -/
theorem C5_witness :
    (envNotFound.retrieve specPlain = RetrievalResult.notFound
      ∧ processSpecs envNotFound [] [specPlain] = processSpecs envNotFound [] [])
    ∧ (envRetrieveFails.retrieve specPlain = RetrievalResult.failed "server exploded"
      ∧ processSpecs envRetrieveFails [] [specPlain] = Except.error "server exploded")
    ∧ (envBadPath.getJSONPath specPlain.path () = Except.error "bad jsonpath"
      ∧ processObjs envBadPath specPlain [] [()] = processObjs envBadPath specPlain [] [])
    ∧ (classifyElement envFormatError "not-an-image"
        = Except.error "format error. not-an-image is not a valid image/version"
      ∧ processElements envFormatError [] ["not-an-image"]
        = Except.error "format error. not-an-image is not a valid image/version") :=
  ⟨⟨rfl, C5_amended.1 Unit envNotFound [] specPlain [] rfl⟩,
   ⟨rfl, C5_amended.2.1 Unit envRetrieveFails [] specPlain [] "server exploded" rfl⟩,
   ⟨rfl, C5_amended.2.2.2.1 Unit envBadPath specPlain [] () [] "bad jsonpath" rfl⟩,
   ⟨rfl, C5_amended.2.2.2.2.1 Unit envFormatError [] "not-an-image" []
      "format error. not-an-image is not a valid image/version" rfl⟩⟩

/-- Architecture normalization never changes the toolkit's OS version. -/
theorem normalizeDTK_osVersion (a : String) (d : DriverToolkitEntry) :
    (normalizeDTK a d).osVersion = d.osVersion := by
  cases hc : containsSubstr d.kernelFullVersion (canonicalArch a) with
  | true => simp [normalizeDTK, hc]
  | false => simp [normalizeDTK, hc]

/-- Looking up the key just written into the node-version map yields the
written record. -/
theorem lookupNV_insertNV_self (info : NVMap) (k : String) (v : NodeVersion) :
    lookupNV (insertNV info k v) k = some v := by
  induction info with
  | nil => simp [insertNV, lookupNV, List.find?]
  | cons p rest ih =>
    by_cases h : p.fst = k
    · simp [insertNV, lookupNV, List.find?, h]
    · have hb : (p.fst == k) = false := beq_eq_false_iff_ne.mpr h
      simpa [insertNV, lookupNV, List.find?, hb] using ih

/-- Writing one key of the node-version map leaves every other key's lookup
unchanged. -/
theorem lookupNV_insertNV_ne (info : NVMap) (k k2 : String) (v : NodeVersion)
    (h : k2 ≠ k) : lookupNV (insertNV info k v) k2 = lookupNV info k2 := by
  have hkk : (k == k2) = false := beq_eq_false_iff_ne.mpr (Ne.symm h)
  induction info with
  | nil => simp [insertNV, lookupNV, List.find?, hkk]
  | cons p rest ih =>
    by_cases hp : p.fst = k
    · simp [insertNV, lookupNV, List.find?, hp, hkk]
    · have hb : (p.fst == k) = false := beq_eq_false_iff_ne.mpr hp
      cases hq : (p.fst == k2) with
      | true => simp [insertNV, lookupNV, List.find?, hb, hq]
      | false => simpa [insertNV, lookupNV, List.find?, hb, hq] using ih

/-- A key absent from the node-version map leaves the correlation branch
without a match. -/
theorem correlateKey_none (info : NVMap) (dtk : DriverToolkitEntry) (osDTK key : String)
    (h : lookupNV info key = none) :
    correlateKey info dtk osDTK key = Except.ok (info, false) := by
  simp [correlateKey, h]

/-- A key present with an agreeing OS version enriches the record and sets
the match flag. -/
theorem correlateKey_found (info : NVMap) (dtk : DriverToolkitEntry) (osDTK key : String)
    (nv : NodeVersion) (h : lookupNV info key = some nv) (ho : nv.osVersion = osDTK) :
    correlateKey info dtk osDTK key = Except.ok (insertNV info key (enrichNV dtk nv), true) := by
  simp [correlateKey, h, ho]

/-- A key present with a disagreeing OS version is fatal. -/
theorem correlateKey_mismatch (info : NVMap) (dtk : DriverToolkitEntry) (osDTK key : String)
    (nv : NodeVersion) (h : lookupNV info key = some nv) (ho : nv.osVersion ≠ osDTK) :
    correlateKey info dtk osDTK key = Except.error (mismatchMsg nv.osVersion osDTK) := by
  simp [correlateKey, h, exitOnError, ho]

/-- A disagreeing OS version under the kernel key makes the correlation core
fail. -/
theorem updateInfoCore_kernel_mismatch (info : NVMap) (dtk : DriverToolkitEntry)
    (nv : NodeVersion) (hlk : lookupNV info dtk.kernelFullVersion = some nv)
    (hne : nv.osVersion ≠ dtk.osVersion) :
    updateInfoCore info dtk = Except.error (mismatchMsg nv.osVersion dtk.osVersion) := by
  simp only [updateInfoCore,
    correlateKey_mismatch info dtk dtk.osVersion dtk.kernelFullVersion nv hlk hne]

/-- A disagreeing OS version under the RT-kernel key makes the correlation
core fail. -/
theorem updateInfoCore_rt_mismatch (info : NVMap) (dtk : DriverToolkitEntry)
    (nv : NodeVersion) (hlk : lookupNV info dtk.rtKernelFullVersion = some nv)
    (hne : nv.osVersion ≠ dtk.osVersion) :
    ∃ e, updateInfoCore info dtk = Except.error e := by
  cases hk : lookupNV info dtk.kernelFullVersion with
  | none =>
    refine ⟨mismatchMsg nv.osVersion dtk.osVersion, ?_⟩
    simp only [updateInfoCore,
      correlateKey_none info dtk dtk.osVersion dtk.kernelFullVersion hk,
      correlateKey_mismatch info dtk dtk.osVersion dtk.rtKernelFullVersion nv hlk hne]
  | some nvk =>
    by_cases hko : nvk.osVersion = dtk.osVersion
    · by_cases hkk : dtk.rtKernelFullVersion = dtk.kernelFullVersion
      · rw [hkk, hk] at hlk
        have hnn : nvk = nv := Option.some.inj hlk
        rw [← hnn] at hne
        exact absurd hko hne
      · have hlk1 : lookupNV (insertNV info dtk.kernelFullVersion (enrichNV dtk nvk))
            dtk.rtKernelFullVersion = some nv := by
          rw [lookupNV_insertNV_ne info dtk.kernelFullVersion dtk.rtKernelFullVersion
            (enrichNV dtk nvk) hkk]
          exact hlk
        refine ⟨mismatchMsg nv.osVersion dtk.osVersion, ?_⟩
        simp only [updateInfoCore,
          correlateKey_found info dtk dtk.osVersion dtk.kernelFullVersion nvk hk hko,
          correlateKey_mismatch _ dtk dtk.osVersion dtk.rtKernelFullVersion nv hlk1 hne]
    · refine ⟨mismatchMsg nvk.osVersion dtk.osVersion, ?_⟩
      simp only [updateInfoCore,
        correlateKey_mismatch info dtk dtk.osVersion dtk.kernelFullVersion nvk hk hko]

/-- Enriching an already-enriched record changes nothing. -/
theorem enrichNV_idem (dtk : DriverToolkitEntry) (nv : NodeVersion) :
    enrichNV dtk (enrichNV dtk nv) = enrichNV dtk nv := rfl

/-- When the correlation core succeeds, every key of the returned map either
kept its original record, or was enriched from a record whose OS version
agreed with the toolkit's. -/
theorem updateInfoCore_enrich (info : NVMap) (dtk : DriverToolkitEntry) (info2 : NVMap)
    (hok : updateInfoCore info dtk = Except.ok info2) :
    ∀ k, lookupNV info2 k = lookupNV info k
      ∨ ∃ nv, lookupNV info k = some nv ∧ nv.osVersion = dtk.osVersion
          ∧ lookupNV info2 k = some (enrichNV dtk nv) := by
  intro k
  cases hk : lookupNV info dtk.kernelFullVersion with
  | none =>
    cases hrt : lookupNV info dtk.rtKernelFullVersion with
    | none =>
      simp [updateInfoCore,
        correlateKey_none info dtk dtk.osVersion dtk.kernelFullVersion hk,
        correlateKey_none info dtk dtk.osVersion dtk.rtKernelFullVersion hrt] at hok
    | some nvr =>
      by_cases hro : nvr.osVersion = dtk.osVersion
      · have h2 : updateInfoCore info dtk
            = Except.ok (insertNV info dtk.rtKernelFullVersion (enrichNV dtk nvr)) := by
          simp [updateInfoCore,
            correlateKey_none info dtk dtk.osVersion dtk.kernelFullVersion hk,
            correlateKey_found info dtk dtk.osVersion dtk.rtKernelFullVersion nvr hrt hro]
        rw [h2] at hok
        have hinfo2 : info2 = insertNV info dtk.rtKernelFullVersion (enrichNV dtk nvr) :=
          (Except.ok.inj hok).symm
        subst hinfo2
        by_cases hkrt : k = dtk.rtKernelFullVersion
        · rw [hkrt]
          exact Or.inr ⟨nvr, hrt, hro, lookupNV_insertNV_self info _ (enrichNV dtk nvr)⟩
        · exact Or.inl (lookupNV_insertNV_ne info dtk.rtKernelFullVersion k
            (enrichNV dtk nvr) hkrt)
      · simp [updateInfoCore,
          correlateKey_none info dtk dtk.osVersion dtk.kernelFullVersion hk,
          correlateKey_mismatch info dtk dtk.osVersion dtk.rtKernelFullVersion nvr hrt hro]
          at hok
  | some nvk =>
    by_cases hko : nvk.osVersion = dtk.osVersion
    · have hkeq := correlateKey_found info dtk dtk.osVersion dtk.kernelFullVersion nvk hk hko
      cases hrt1 : lookupNV (insertNV info dtk.kernelFullVersion (enrichNV dtk nvk))
          dtk.rtKernelFullVersion with
      | none =>
        have h2 : updateInfoCore info dtk
            = Except.ok (insertNV info dtk.kernelFullVersion (enrichNV dtk nvk)) := by
          simp [updateInfoCore, hkeq,
            correlateKey_none _ dtk dtk.osVersion dtk.rtKernelFullVersion hrt1]
        rw [h2] at hok
        have hinfo2 : info2 = insertNV info dtk.kernelFullVersion (enrichNV dtk nvk) :=
          (Except.ok.inj hok).symm
        subst hinfo2
        by_cases hkk : k = dtk.kernelFullVersion
        · rw [hkk]
          exact Or.inr ⟨nvk, hk, hko, lookupNV_insertNV_self info _ (enrichNV dtk nvk)⟩
        · exact Or.inl (lookupNV_insertNV_ne info dtk.kernelFullVersion k
            (enrichNV dtk nvk) hkk)
      | some nvr =>
        by_cases hro : nvr.osVersion = dtk.osVersion
        · have h2 : updateInfoCore info dtk
              = Except.ok (insertNV (insertNV info dtk.kernelFullVersion (enrichNV dtk nvk))
                  dtk.rtKernelFullVersion (enrichNV dtk nvr)) := by
            simp [updateInfoCore, hkeq,
              correlateKey_found _ dtk dtk.osVersion dtk.rtKernelFullVersion nvr hrt1 hro]
          rw [h2] at hok
          have hinfo2 : info2 = insertNV (insertNV info dtk.kernelFullVersion (enrichNV dtk nvk))
              dtk.rtKernelFullVersion (enrichNV dtk nvr) := (Except.ok.inj hok).symm
          subst hinfo2
          by_cases hkrt : k = dtk.rtKernelFullVersion
          · rw [hkrt]
            by_cases hrk : dtk.rtKernelFullVersion = dtk.kernelFullVersion
            · have hnn : nvr = enrichNV dtk nvk := by
                rw [hrk, lookupNV_insertNV_self] at hrt1
                exact (Option.some.inj hrt1).symm
              refine Or.inr ⟨nvk, ?_, hko, ?_⟩
              · rw [hrk]; exact hk
              · rw [lookupNV_insertNV_self, hnn]
                exact congrArg some (enrichNV_idem dtk nvk)
            · have hrt0 : lookupNV info dtk.rtKernelFullVersion = some nvr := by
                rw [← lookupNV_insertNV_ne info dtk.kernelFullVersion dtk.rtKernelFullVersion
                  (enrichNV dtk nvk) hrk]
                exact hrt1
              exact Or.inr ⟨nvr, hrt0, hro, lookupNV_insertNV_self _ _ (enrichNV dtk nvr)⟩
          · have hstep : lookupNV (insertNV (insertNV info dtk.kernelFullVersion
                (enrichNV dtk nvk)) dtk.rtKernelFullVersion (enrichNV dtk nvr)) k
                = lookupNV (insertNV info dtk.kernelFullVersion (enrichNV dtk nvk)) k :=
              lookupNV_insertNV_ne _ dtk.rtKernelFullVersion k (enrichNV dtk nvr) hkrt
            by_cases hkk : k = dtk.kernelFullVersion
            · rw [hstep, hkk, lookupNV_insertNV_self]
              exact Or.inr ⟨nvk, hk, hko, rfl⟩
            · rw [hstep, lookupNV_insertNV_ne info dtk.kernelFullVersion k
                (enrichNV dtk nvk) hkk]
              exact Or.inl rfl
        · simp [updateInfoCore, hkeq,
            correlateKey_mismatch _ dtk dtk.osVersion dtk.rtKernelFullVersion nvr hrt1 hro]
            at hok
    · simp [updateInfoCore,
        correlateKey_mismatch info dtk dtk.osVersion dtk.kernelFullVersion nvk hk hko] at hok

/-- C8: for every node-version map and toolkit release, if the toolkit's
arch-normalized kernel or RT-kernel version matches a key of the map and the
node-derived OS version stored under that key differs from the toolkit's OS
version, correlation fails fatally (the modelled `exit.OnError` mismatch
abort) and the node record is never silently overwritten; and whenever
correlation succeeds, every record of the returned map is either unchanged
or was enriched with the toolkit release from a record whose OS version
equalled the toolkit's. -/
theorem C8_consistency (runningArch imageURL : String) (info : NVMap)
    (dtk0 ndtk : DriverToolkitEntry)
    (hn : ndtk = normalizeDTK runningArch { dtk0 with imageURL := imageURL }) :
    (∀ nv, lookupNV info ndtk.kernelFullVersion = some nv →
      nv.osVersion ≠ dtk0.osVersion →
      ∃ e, UpdateInfo runningArch info dtk0 imageURL = Except.error e)
    ∧ (∀ nv, lookupNV info ndtk.rtKernelFullVersion = some nv →
      nv.osVersion ≠ dtk0.osVersion →
      ∃ e, UpdateInfo runningArch info dtk0 imageURL = Except.error e)
    ∧ (∀ info2, UpdateInfo runningArch info dtk0 imageURL = Except.ok info2 →
      ∀ k, lookupNV info2 k = lookupNV info k
        ∨ ∃ nv, lookupNV info k = some nv ∧ nv.osVersion = dtk0.osVersion
            ∧ lookupNV info2 k = some (enrichNV ndtk nv)) := by
  have hos : ndtk.osVersion = dtk0.osVersion := by
    rw [hn]
    exact normalizeDTK_osVersion runningArch { dtk0 with imageURL := imageURL }
  have hupd : UpdateInfo runningArch info dtk0 imageURL = updateInfoCore info ndtk := by
    rw [hn]; rfl
  refine ⟨?_, ?_, ?_⟩
  · intro nv hlk hne
    rw [hupd]
    exact ⟨_, updateInfoCore_kernel_mismatch info ndtk nv hlk (fun hh => hne (hh.trans hos))⟩
  · intro nv hlk hne
    rw [hupd]
    exact updateInfoCore_rt_mismatch info ndtk nv hlk (fun hh => hne (hh.trans hos))
  · intro info2 hok k
    rw [hupd] at hok
    rcases updateInfoCore_enrich info ndtk info2 hok k with h | ⟨nv, h1, h2, h3⟩
    · exact Or.inl h
    · exact Or.inr ⟨nv, h1, h2.trans hos, h3⟩

/-- Witness for C8: the node map records OS version 8.5 under the normalized
kernel key while the toolkit reports 8.4, and correlation fails with an
error. -/
theorem C8_witness :
    lookupNV infoMismatch
        (normalizeDTK "amd64" { dtkBare with imageURL := "dtk-image" }).kernelFullVersion
      = some nvOS85
    ∧ nvOS85.osVersion ≠ dtkBare.osVersion
    ∧ ∃ e, UpdateInfo "amd64" infoMismatch dtkBare "dtk-image" = Except.error e := by
  refine ⟨by decide, by decide, ?_⟩
  exact (C8_consistency "amd64" "dtk-image" infoMismatch dtkBare _ rfl).1 nvOS85
    (by decide) (by decide)

end SRO

